import Mathlib

/-!
Verification development for the synthetic-event layer of the repository
(responder negotiation plugin, synthetic-event factory, simple event plugin).

The JavaScript sources are shallowly embedded: module-level mutable state
becomes an explicit state record (`RState`) threaded through the functions,
and the external collaborators (Instance/Tree Oracle, dispatch
accumulators/executor, touch-history store) are abstracted as an oracle
record (`Env`) of unconstrained functions, queried exactly where the source
queries them.  Instances and platform nodes are represented by `Nat`.
-/

namespace Responder

/-- The nine injected top-level event types
(`createResponderEventPlugin(TopLevelTypes)`). -/
inductive TopLevelType
  | topMouseDown
  | topMouseMove
  | topMouseUp
  | topScroll
  | topSelectionChange
  | topTouchCancel
  | topTouchEnd
  | topTouchMove
  | topTouchStart
deriving DecidableEq, Repr

/-- Source `isStartish` (createResponderEventPlugin.js): mouse-down or touch-start. -/
def isStartish (t : TopLevelType) : Bool :=
  t == .topMouseDown || t == .topTouchStart

/-- Source `isMoveish`: mouse-move or touch-move. -/
def isMoveish (t : TopLevelType) : Bool :=
  t == .topMouseMove || t == .topTouchMove

/-- Source `isEndish`: mouse-up, touch-end or touch-cancel. -/
def isEndish (t : TopLevelType) : Bool :=
  t == .topMouseUp || t == .topTouchEnd || t == .topTouchCancel

/-- The dispatch configurations of the responder plugin (`eventTypes` object in
createResponderEventPlugin.js), identified by registration name. -/
inductive RespEventType
  | onStartShouldSetResponder
  | onScrollShouldSetResponder
  | onSelectionChangeShouldSetResponder
  | onMoveShouldSetResponder
  | onResponderStart
  | onResponderMove
  | onResponderEnd
  | onResponderRelease
  | onResponderTerminationRequest
  | onResponderGrant
  | onResponderReject
  | onResponderTerminate
deriving DecidableEq, Repr

/-- One entry of `nativeEvent.touches`; `target` is the platform node the touch
originally started on (`none` models JavaScript null/undefined). -/
structure NativeTouch where
  target : Option Nat
deriving DecidableEq, Repr

/-- The part of the native event the responder plugin reads:
`touches` (`none` models a missing/null array) and `responderIgnoreScroll`. -/
structure NativeEvent where
  touches : Option (List NativeTouch) := none
  responderIgnoreScroll : Bool := false
deriving DecidableEq, Repr

/-- A responder synthetic event as observable from the extraction result:
its dispatch configuration and the instance it was targeted at
(`ResponderSyntheticEvent.getPooled(type, targetInst, ...)`). -/
structure SynthEvent where
  kind : RespEventType
  target : Nat
deriving DecidableEq, Repr

/-- One call of the injected `GlobalResponderHandler.onChange(old, next, block)`.
`blockNativeResponder = none` models the JavaScript `undefined` that is passed
when `changeResponder(null)` is called with a single argument. -/
structure HookCall where
  previous : Option Nat
  next : Option Nat
  blockNativeResponder : Option Bool
deriving DecidableEq, Repr

/-- Oracle record for the collaborators of createResponderEventPlugin.js.
Modelled from the spec: the Instance/Tree Oracle
(`getLowestCommonAncestor`, `isAncestor`, `getInstanceFromNode`, spec section 6)
and the dispatch accumulators/executor of section 4.3
(whose sources, shared/ReactTreeTraversal, events/EventPluginUtils and
events/EventPropagators, are not under src/) are abstracted as unconstrained
functions returning the result the source reads back:
`twoPhaseStopAtTrue ty origin skip` is the instance found by
`accumulateTwoPhaseDispatches(SkipTarget)` followed by
`executeDispatchesInOrderStopAtTrue`; `directDispatchEqTrue ty inst` is the
value of `executeDirectDispatch(event) === true`; `directDispatchTruthy` the
truthiness of `executeDirectDispatch(event)`; `hasDirectDispatch` the value of
`hasDispatches(event)` after `accumulateDirectDispatches`; `recordActive`
the active-touch count of the Touch History Store (section 4.5) after
`recordTouchTrack`. -/
structure Env where
  getLowestCommonAncestor : Nat → Nat → Nat
  isAncestor : Option Nat → Option Nat → Bool
  getInstanceFromNode : Nat → Option Nat
  twoPhaseStopAtTrue : RespEventType → Nat → Bool → Option Nat
  directDispatchEqTrue : RespEventType → Nat → Bool
  directDispatchTruthy : RespEventType → Nat → Bool
  hasDirectDispatch : RespEventType → Nat → Bool
  globalResponderHandlerPresent : Bool
  globalInteractionHandlerPresent : Bool
  recordActive : TopLevelType → NativeEvent → Int → Int

/-- The module-level mutable state of createResponderEventPlugin.js:
`responderInst`, `trackedTouchCount`, the touch-history store's active-touch
count and `previousActiveTouches`. -/
structure RState where
  responderInst : Option Nat := none
  trackedTouchCount : Int := 0
  touchHistoryActive : Int := 0
  previousActiveTouches : Int := 0
deriving DecidableEq, Repr

/-- Source `changeResponder(nextResponderInst, blockHostResponder)`: rebinds
`responderInst` and, when a `GlobalResponderHandler` is injected, invokes its
`onChange(oldResponderInst, nextResponderInst, blockHostResponder)`; the call
is returned as a one-element log. -/
def changeResponder (env : Env) (st : RState) (nextResponderInst : Option Nat)
    (blockHostResponder : Option Bool) : RState × List HookCall :=
  ({ st with responderInst := nextResponderInst },
   if env.globalResponderHandlerPresent then
     [{ previous := st.responderInst, next := nextResponderInst,
        blockNativeResponder := blockHostResponder }]
   else [])

/-- Modelled from the spec: `ResponderSyntheticEvent` (its module is not under
src/) is an event built by the synthetic-event factory of section 4.1, and every
event that factory builds (see `SyntheticEvent.createSyntheticCreator` below)
answers `isPersistent()` with `true`. -/
def responderEventIsPersistent : Bool := true

/-- The release guard used by the source after an on-demand dispatch:
`if (!event.isPersistent()) event.constructor.release(event)`.  Returns the
(possibly empty) log of events handed to `release`. -/
def maybeRelease (e : SynthEvent) : List SynthEvent :=
  if !responderEventIsPersistent then [e] else []

/-- Result of one negotiation / extraction step: the accumulated synthetic
events (`[]` models the JavaScript `null` accumulation), the updated state, the
global-responder-hook call log and the log of events passed to `release`. -/
structure TransferOut where
  extracted : List SynthEvent := []
  state : RState
  hooks : List HookCall := []
  released : List SynthEvent := []
deriving DecidableEq, Repr

/-- Source `setResponderAndExtractTransfer(topLevelType, targetInst,
nativeEvent, nativeEventTarget)`: runs the should-set query, then the
grant / termination-request / terminate / reject negotiation, transferring
ownership through `changeResponder` when the transfer is allowed. -/
def setResponderAndExtractTransfer (env : Env) (st : RState)
    (topLevelType : TopLevelType) (targetInst : Nat) : TransferOut :=
  let shouldSetEventType : RespEventType :=
    if isStartish topLevelType then .onStartShouldSetResponder
    else if isMoveish topLevelType then .onMoveShouldSetResponder
    else if topLevelType == .topSelectionChange then .onSelectionChangeShouldSetResponder
    else .onScrollShouldSetResponder
  let bubbleShouldSetFrom : Nat :=
    match st.responderInst with
    | none => targetInst
    | some r => env.getLowestCommonAncestor r targetInst
  let skipOverBubbleShouldSetFrom : Bool := some bubbleShouldSetFrom == st.responderInst
  let shouldSetEvent : SynthEvent := ⟨shouldSetEventType, bubbleShouldSetFrom⟩
  let wantsResponderInst : Option Nat :=
    env.twoPhaseStopAtTrue shouldSetEventType bubbleShouldSetFrom skipOverBubbleShouldSetFrom
  let released := maybeRelease shouldSetEvent
  match wantsResponderInst with
  | none => { state := st, released }
  | some wants =>
    if some wants == st.responderInst then { state := st, released }
    else
      let grantEvent : SynthEvent := ⟨.onResponderGrant, wants⟩
      let blockHostResponder : Bool := env.directDispatchEqTrue .onResponderGrant wants
      match st.responderInst with
      | some r =>
        let terminationRequestEvent : SynthEvent := ⟨.onResponderTerminationRequest, r⟩
        let shouldSwitch : Bool :=
          !env.hasDirectDispatch .onResponderTerminationRequest r
            || env.directDispatchTruthy .onResponderTerminationRequest r
        let released := released ++ maybeRelease terminationRequestEvent
        if shouldSwitch then
          let terminateEvent : SynthEvent := ⟨.onResponderTerminate, r⟩
          let next := changeResponder env st (some wants) (some blockHostResponder)
          { extracted := [grantEvent, terminateEvent], state := next.1,
            hooks := next.2, released }
        else
          let rejectEvent : SynthEvent := ⟨.onResponderReject, wants⟩
          { extracted := [rejectEvent], state := st, released }
      | none =>
        let next := changeResponder env st (some wants) (some blockHostResponder)
        { extracted := [grantEvent], state := next.1, hooks := next.2, released }

/-- Source `canTriggerTransfer(topLevelType, topLevelInst, nativeEvent)`:
a transfer is possible only for a non-null target instance and an un-ignored
scroll, a selection-change while touches are tracked, or a start-ish/move-ish
event. -/
def canTriggerTransfer (st : RState) (topLevelType : TopLevelType)
    (topLevelInst : Option Nat) (nativeEvent : NativeEvent) : Bool :=
  topLevelInst.isSome &&
    ((topLevelType == .topScroll && !nativeEvent.responderIgnoreScroll) ||
     (decide (st.trackedTouchCount > 0) && topLevelType == .topSelectionChange) ||
     isStartish topLevelType || isMoveish topLevelType)

/-- Source `noResponderTouches(nativeEvent)`: true when no listed touch with a
non-null, non-zero target node has an originating instance that is the current
responder or a descendant of it. -/
def noResponderTouches (env : Env) (responderInst : Option Nat)
    (nativeEvent : NativeEvent) : Bool :=
  match nativeEvent.touches with
  | none => true
  | some touches =>
    if touches.length == 0 then true
    else touches.all fun activeTouch =>
      match activeTouch.target with
      | none => true
      | some target =>
        if target == 0 then true
        else !env.isAncestor responderInst (env.getInstanceFromNode target)

/-- Full observable outcome of one `ResponderEventPlugin.extractEvents` call. -/
structure ExtractOut where
  extracted : List SynthEvent := []
  state : RState
  hooks : List HookCall := []
  interactionCalls : List Int := []
  released : List SynthEvent := []
  errorLogged : Bool := false
deriving DecidableEq, Repr

/-- An empty negotiation result (the `: null` arm of the source's
`canTriggerTransfer` conditional). -/
def noTransfer (st : RState) : TransferOut := { state := st }

/-- The tail of `extractEvents` after touch-count bookkeeping, touch-history
recording and the (possible) transfer negotiation: incremental
start/move/end delivery to the current responder, terminal
terminate/release delivery, and the global-interaction-handler update. -/
def finishExtract (env : Env) (topLevelType : TopLevelType)
    (nativeEvent : NativeEvent) (tout : TransferOut) : ExtractOut :=
  let st := tout.state
  let extracted := tout.extracted
  let incrementalTouch : Option RespEventType :=
    match st.responderInst with
    | none => none
    | some _ =>
      if isStartish topLevelType then some .onResponderStart
      else if isMoveish topLevelType then some .onResponderMove
      else if isEndish topLevelType then some .onResponderEnd
      else none
  let extracted :=
    match st.responderInst, incrementalTouch with
    | some r, some k => extracted ++ [⟨k, r⟩]
    | _, _ => extracted
  let isResponderTerminate : Bool :=
    st.responderInst.isSome && topLevelType == .topTouchCancel
  let isResponderRelease : Bool :=
    st.responderInst.isSome && !isResponderTerminate && isEndish topLevelType &&
      noResponderTouches env st.responderInst nativeEvent
  let finalTouch : Option RespEventType :=
    if isResponderTerminate then some .onResponderTerminate
    else if isResponderRelease then some .onResponderRelease
    else none
  let finalStep : List SynthEvent × RState × List HookCall :=
    match st.responderInst, finalTouch with
    | some r, some k =>
      let next := changeResponder env st none none
      ([⟨k, r⟩], next.1, next.2)
    | _, _ => ([], st, [])
  let extracted := extracted ++ finalStep.1
  let st := finalStep.2.1
  let hooks := tout.hooks ++ finalStep.2.2
  let numberActiveTouches := st.touchHistoryActive
  let interactionCalls : List Int :=
    if env.globalInteractionHandlerPresent
        && !(numberActiveTouches == st.previousActiveTouches) then
      [numberActiveTouches]
    else []
  { extracted, state := { st with previousActiveTouches := numberActiveTouches },
    hooks, interactionCalls, released := tout.released }

/-- The `canTriggerTransfer ? setResponderAndExtractTransfer(...) : null`
conditional of `extractEvents`. -/
def transferStage (env : Env) (st : RState) (topLevelType : TopLevelType)
    (targetInst : Option Nat) (nativeEvent : NativeEvent) : TransferOut :=
  match targetInst with
  | some ti =>
    if canTriggerTransfer st topLevelType targetInst nativeEvent then
      setResponderAndExtractTransfer env st topLevelType ti
    else noTransfer st
  | none => noTransfer st

/-- The body of `extractEvents` after the tracked-touch-count bookkeeping:
record into the touch-history store, negotiate a transfer when possible, then
finish with incremental and terminal delivery. -/
def extractAfterCount (env : Env) (st : RState) (topLevelType : TopLevelType)
    (targetInst : Option Nat) (nativeEvent : NativeEvent) : ExtractOut :=
  let st := { st with
    touchHistoryActive := env.recordActive topLevelType nativeEvent st.touchHistoryActive }
  finishExtract env topLevelType nativeEvent
    (transferStage env st topLevelType targetInst nativeEvent)

/-- Source `ResponderEventPlugin.extractEvents`: a start-ish event increments
`trackedTouchCount`; an end-ish event decrements it when the count is `>= 0`,
and otherwise logs an accounting error and returns `null` with nothing else
done; then the recording / negotiation / delivery pipeline runs. -/
def extractEvents (env : Env) (st : RState) (topLevelType : TopLevelType)
    (targetInst : Option Nat) (nativeEvent : NativeEvent) : ExtractOut :=
  if isStartish topLevelType then
    extractAfterCount env { st with trackedTouchCount := st.trackedTouchCount + 1 }
      topLevelType targetInst nativeEvent
  else if isEndish topLevelType then
    if st.trackedTouchCount ≥ 0 then
      extractAfterCount env { st with trackedTouchCount := st.trackedTouchCount - 1 }
        topLevelType targetInst nativeEvent
    else
      { state := st, errorLogged := true }
  else
    extractAfterCount env st topLevelType targetInst nativeEvent

/-- One native event as fed to the plugin: type, target instance, payload. -/
structure NativeStep where
  topLevelType : TopLevelType
  targetInst : Option Nat
  nativeEvent : NativeEvent
deriving DecidableEq, Repr

/-- Fold `extractEvents` over a sequence of native events, collecting the final
state and the concatenated global-responder-hook call log. -/
def runEvents (env : Env) (st : RState) : List NativeStep → RState × List HookCall
  | [] => (st, [])
  | step :: rest =>
    let out := extractEvents env st step.topLevelType step.targetInst step.nativeEvent
    let tail := runEvents env out.state rest
    (tail.1, out.hooks ++ tail.2)

/-- A concrete oracle environment used by witnesses and counterexamples:
trivial tree, no interested handlers, injected global responder handler. -/
def envW : Env where
  getLowestCommonAncestor := fun _ _ => 0
  isAncestor := fun _ _ => false
  getInstanceFromNode := fun n => some n
  twoPhaseStopAtTrue := fun _ _ _ => none
  directDispatchEqTrue := fun _ _ => false
  directDispatchTruthy := fun _ _ => false
  hasDirectDispatch := fun _ _ => false
  globalResponderHandlerPresent := true
  globalInteractionHandlerPresent := false
  recordActive := fun _ _ a => a

/-- Oracle environment in which every should-set query nominates instance 1. -/
def envG : Env := { envW with twoPhaseStopAtTrue := fun _ _ _ => some 1 }

/-- Oracle environment in which every should-set query nominates instance 2,
the responder has a termination-request handler, and that handler refuses. -/
def envR : Env := { envW with
  twoPhaseStopAtTrue := fun _ _ _ => some 2
  hasDirectDispatch := fun _ _ => true
  directDispatchTruthy := fun _ _ => false }

/-- A global-responder-hook call log `l` is a chain from responder `a` to
responder `b`: each call reports as `previous` the responder left by the call
before it, and the last call's `next` is `b` (an empty log means `a = b`). -/
def hookChain : Option Nat → List HookCall → Option Nat → Prop
  | a, [], b => a = b
  | a, h :: rest, b => a = h.previous ∧ hookChain h.next rest b

/-- C3, counterexample: a touch-start on leaf instance 1 with no existing
responder, the global responder hook injected and the should-set query
nominating instance 1 does NOT extract exactly the grant event: the extraction
also appends an `onResponderStart` event to the newly granted responder. -/
theorem grant_not_single_event :
    envG.globalResponderHandlerPresent = true ∧
    ({ } : RState).responderInst = none ∧
    envG.twoPhaseStopAtTrue .onStartShouldSetResponder 1 false = some 1 ∧
    ¬ (extractEvents envG { } .topTouchStart (some 1) { }).extracted =
        [⟨.onResponderGrant, 1⟩] := by
  decide

/-- C3, amended: a single start-ish event at leaf instance L with no existing
responder and L's should-set handler returning true extracts exactly TWO
synthetic events — the grant event and then a responder-start event, both
targeted at L — and the global responder hook is called once with
previous = null and next = L. -/
theorem grant_scenario (env : Env) (st : RState) (t : TopLevelType) (L : Nat)
    (ne : NativeEvent)
    (hstart : isStartish t = true)
    (hresp : st.responderInst = none)
    (hwant : env.twoPhaseStopAtTrue .onStartShouldSetResponder L false = some L)
    (hp : env.globalResponderHandlerPresent = true) :
    (extractEvents env st t (some L) ne).extracted =
      [⟨.onResponderGrant, L⟩, ⟨.onResponderStart, L⟩] ∧
    (extractEvents env st t (some L) ne).hooks =
      [⟨none, some L, some (env.directDispatchEqTrue .onResponderGrant L)⟩] ∧
    (extractEvents env st t (some L) ne).state.responderInst = some L := by
  cases t <;>
    simp_all [extractEvents, extractAfterCount, transferStage, canTriggerTransfer,
      setResponderAndExtractTransfer, changeResponder, finishExtract, noTransfer,
      maybeRelease, responderEventIsPersistent, isStartish, isMoveish, isEndish]

/-- C3, witness: the amended scenario at concrete instance 1. -/
theorem grant_scenario_witness :
    (extractEvents envG { } .topTouchStart (some 1) { }).extracted =
      [⟨.onResponderGrant, 1⟩, ⟨.onResponderStart, 1⟩] ∧
    (extractEvents envG { } .topTouchStart (some 1) { }).hooks =
      [⟨none, some 1, some (envG.directDispatchEqTrue .onResponderGrant 1)⟩] ∧
    (extractEvents envG { } .topTouchStart (some 1) { }).state.responderInst = some 1 :=
  grant_scenario envG { } .topTouchStart 1 { } (by decide) (by decide) (by decide)
    (by decide)

/-- C4, counterexample: with responder 1, a touch-start nominating instance 2
and the termination-request handler refusing, the extraction does NOT consist
of exactly the reject event targeted at 2: an `onResponderStart` targeted at
the retained responder 1 is also extracted. -/
theorem reject_not_single_event :
    ({ responderInst := some 1 } : RState).responderInst = some 1 ∧
    envR.twoPhaseStopAtTrue .onStartShouldSetResponder
      (envR.getLowestCommonAncestor 1 2) false = some 2 ∧
    envR.hasDirectDispatch .onResponderTerminationRequest 1 = true ∧
    envR.directDispatchTruthy .onResponderTerminationRequest 1 = false ∧
    ¬ (extractEvents envR { responderInst := some 1 } .topTouchStart (some 2) { }).extracted =
        [⟨.onResponderReject, 2⟩] := by
  decide

/-- C4, amended: with responder L, a start-ish event whose should-set query
nominates a distinct candidate M, and L's termination-request handler present
and returning false, the extraction consists of exactly the reject event
targeted at M followed by a responder-start event targeted at L; the responder
remains L and the global responder hook is not called. -/
theorem reject_scenario (env : Env) (st : RState) (t : TopLevelType)
    (L M : Nat) (ne : NativeEvent)
    (hstart : isStartish t = true)
    (hresp : st.responderInst = some L)
    (hwant : ∀ skip, env.twoPhaseStopAtTrue .onStartShouldSetResponder
      (env.getLowestCommonAncestor L M) skip = some M)
    (hne : M ≠ L)
    (hhas : env.hasDirectDispatch .onResponderTerminationRequest L = true)
    (hterm : env.directDispatchTruthy .onResponderTerminationRequest L = false) :
    (extractEvents env st t (some M) ne).extracted =
      [⟨.onResponderReject, M⟩, ⟨.onResponderStart, L⟩] ∧
    (extractEvents env st t (some M) ne).state.responderInst = some L ∧
    (extractEvents env st t (some M) ne).hooks = [] := by
  have hw := hwant (env.getLowestCommonAncestor L M == L)
  cases t <;>
    simp_all [extractEvents, extractAfterCount, transferStage, canTriggerTransfer,
      setResponderAndExtractTransfer, changeResponder, finishExtract, noTransfer,
      maybeRelease, responderEventIsPersistent, isStartish, isMoveish, isEndish]

/-- C4, witness: the amended scenario at responder 1 and candidate 2. -/
theorem reject_scenario_witness :
    (extractEvents envR { responderInst := some 1 } .topTouchStart (some 2) { }).extracted =
      [⟨.onResponderReject, 2⟩, ⟨.onResponderStart, 1⟩] ∧
    (extractEvents envR { responderInst := some 1 } .topTouchStart (some 2) { }).state.responderInst
      = some 1 ∧
    (extractEvents envR { responderInst := some 1 } .topTouchStart (some 2) { }).hooks = [] :=
  reject_scenario envR { responderInst := some 1 } .topTouchStart 1 2 { }
    (by decide) (by decide) (fun _ => rfl) (by decide) (by decide) (by decide)

/-- C5: with responder L, a non-negative tracked touch count, and a touch-end
event for which `noResponderTouches` reports no remaining touches inside L,
the extraction is exactly the responder-end event followed by the
responder-release event, both targeted at L; the responder is cleared to null
and the global responder hook is called with previous = L and next = null
(and an undefined block argument). -/
theorem release_scenario (env : Env) (st : RState) (L : Nat) (ti : Option Nat)
    (ne : NativeEvent)
    (hresp : st.responderInst = some L)
    (hcount : st.trackedTouchCount ≥ 0)
    (hnotouch : noResponderTouches env (some L) ne = true)
    (hp : env.globalResponderHandlerPresent = true) :
    (extractEvents env st .topTouchEnd ti ne).extracted =
      [⟨.onResponderEnd, L⟩, ⟨.onResponderRelease, L⟩] ∧
    (extractEvents env st .topTouchEnd ti ne).state.responderInst = none ∧
    (extractEvents env st .topTouchEnd ti ne).hooks = [⟨some L, none, none⟩] := by
  cases ti <;>
    simp_all [extractEvents, extractAfterCount, transferStage, canTriggerTransfer,
      setResponderAndExtractTransfer, changeResponder, finishExtract, noTransfer,
      maybeRelease, responderEventIsPersistent, isStartish, isMoveish, isEndish]

/-- C5, witness: the release scenario at responder 1 with one tracked touch
and an empty touch list. -/
theorem release_scenario_witness :
    (extractEvents envW { responderInst := some 1, trackedTouchCount := 1 }
        .topTouchEnd (some 1) { }).extracted =
      [⟨.onResponderEnd, 1⟩, ⟨.onResponderRelease, 1⟩] ∧
    (extractEvents envW { responderInst := some 1, trackedTouchCount := 1 }
        .topTouchEnd (some 1) { }).state.responderInst = none ∧
    (extractEvents envW { responderInst := some 1, trackedTouchCount := 1 }
        .topTouchEnd (some 1) { }).hooks = [⟨some 1, none, none⟩] :=
  release_scenario envW { responderInst := some 1, trackedTouchCount := 1 } 1
    (some 1) { } (by decide) (by decide) (by decide) (by decide)

/-- C6: `noResponderTouches(nativeEvent)` is true exactly when no listed touch
with a non-null, non-zero original target node resolves (through the
Instance/Tree Oracle's `getInstanceFromNode` and `isAncestor`, taken as given)
to an instance inside the current responder; and in particular it is true when
the event lists no touches at all. -/
theorem noResponderTouches_spec (env : Env) (responderInst : Option Nat)
    (nativeEvent : NativeEvent) :
    (noResponderTouches env responderInst nativeEvent = true ↔
      ∀ touch ∈ nativeEvent.touches.getD [], ∀ n, touch.target = some n → n ≠ 0 →
        env.isAncestor responderInst (env.getInstanceFromNode n) = false) ∧
    noResponderTouches env responderInst { nativeEvent with touches := none } = true ∧
    noResponderTouches env responderInst { nativeEvent with touches := some [] } = true := by
  refine ⟨?_, rfl, rfl⟩
  unfold noResponderTouches
  cases h : nativeEvent.touches with
  | none => simp
  | some touches =>
    cases touches with
    | nil => simp
    | cons t ts =>
      have hlen : ((t :: ts).length == 0) = false := by simp
      simp only [hlen, Bool.false_eq_true, if_false, List.all_eq_true, Option.getD_some]
      constructor
      · intro ha touch hmem n htgt hn
        have h2 := ha touch hmem
        rw [htgt] at h2
        simpa [hn] using h2
      · intro ha touch hmem
        rcases htgt : touch.target with _ | n
        · simp [htgt]
        · by_cases hn : n = 0
          · simp [htgt, hn]
          · simp [htgt, hn, ha touch hmem n htgt hn]

end Responder

namespace SyntheticEvent

/-- The two ways the factory's property walk can throw: `Object.keys(null)`
raising a TypeError when a prototype chain runs out before `target` is found,
and the explicit depth-bound error thrown after the loop. -/
inductive JsErr
  | typeError
  | shouldNeverHappen
deriving DecidableEq, Repr

/-- The while-loop of `getPropertiesForEvent` (SyntheticEvent.js): starting
from iteration counter `j` and accumulated `properties`, walk the prototype
chain (each element is the `Object.keys` of one prototype level) while
`!includedAllKeys && j < 10`; finding `target` among a level's keys sets
`includedAllKeys`.  Returns the accumulated names with the final value of `j`. -/
def getPropsLoop : List (List String) → Nat → List String →
    Except JsErr (List String × Nat)
  | chain, j, properties =>
    if j < 10 then
      match chain with
      | [] => .error .typeError
      | keys :: rest =>
        let properties := properties ++ keys
        if "target" ∈ keys then .ok (properties, j + 1)
        else getPropsLoop rest (j + 1) properties
    else .ok (properties, j)

/-- Source `getPropertiesForEvent(nativeEvent)`: run the bounded prototype-chain
walk and then throw `This should never happen.` whenever `j >= 10`. -/
def getPropertiesForEvent (chain : List (List String)) : Except JsErr (List String) :=
  match getPropsLoop chain 0 [] with
  | .error e => .error e
  | .ok (properties, j) =>
    if j ≥ 10 then .error .shouldNeverHappen else .ok properties

/-- The native event as read by `createSyntheticCreator`: its prototype chain
of enumerable property names, and its `defaultPrevented` / `returnValue`
fields (`none` models null/undefined). -/
structure DomNativeEvent where
  chain : List (List String)
  defaultPrevented : Option Bool := none
  returnValue : Option Bool := none
deriving DecidableEq, Repr

/-- The observable shape of an event built by `createSyntheticCreator`:
`persistResult` and `isPersistentResult` are the (constant) return values of
the `persist` and `isPersistent` methods installed on the object literal. -/
structure SyntheticEvt where
  dispatchConfig : String
  targetInst : Option Nat
  isDefaultPrevented : Bool
  isPropagationStopped : Bool
  persistResult : Bool
  isPersistentResult : Bool
  target : Nat
  props : List String
deriving DecidableEq, Repr

/-- Source `createSyntheticCreator(dispatchConfig, targetInst, nativeEvent,
nativeEventTarget)` returned by `createSyntheticEventCreator` in
SyntheticEvent.js: collect the property names (propagating the walk's
exception), compute `defaultPrevented` from the native flag or the legacy
`returnValue === false` convention, and build the event object whose
`persist` and `isPersistent` both return `true`. -/
def createSyntheticCreator (dispatchConfig : String) (targetInst : Option Nat)
    (nativeEvent : DomNativeEvent) (nativeEventTarget : Nat) :
    Except JsErr SyntheticEvt :=
  match getPropertiesForEvent nativeEvent.chain with
  | .error e => .error e
  | .ok properties =>
    let defaultPrevented : Bool :=
      match nativeEvent.defaultPrevented with
      | some b => b
      | none => nativeEvent.returnValue == some false
    .ok { dispatchConfig, targetInst,
          isDefaultPrevented := defaultPrevented,
          isPropagationStopped := false,
          persistResult := true,
          isPersistentResult := true,
          target := nativeEventTarget,
          props := properties }

theorem getPropsLoop_found (pre : List (List String)) (keys : List String)
    (post : List (List String)) (j : Nat) (acc : List String)
    (hpre : ∀ l ∈ pre, "target" ∉ l) (hkeys : "target" ∈ keys)
    (hj : j + pre.length + 1 ≤ 9) :
    getPropsLoop (pre ++ keys :: post) j acc =
      .ok (acc ++ pre.flatten ++ keys, j + pre.length + 1) := by
  induction pre generalizing j acc with
  | nil =>
    rw [getPropsLoop.eq_def]
    simp only [List.nil_append, List.length_nil, List.flatten_nil, List.append_nil]
    rw [if_pos (by omega), if_pos hkeys]
  | cons l pre ih =>
    rw [getPropsLoop.eq_def]
    simp only [List.cons_append, List.length_cons] at hj ⊢
    rw [if_pos (by omega), if_neg (hpre l (List.mem_cons_self l pre))]
    rw [ih _ _ (fun x hx => hpre x (List.mem_cons_of_mem l hx)) (by omega)]
    have harith : j + 1 + pre.length + 1 = j + (pre.length + 1) + 1 := by omega
    rw [harith]
    simp [List.flatten_cons, List.append_assoc]

/-- C7, counterexample: a native event whose enumerable `target` property is
reachable within the walk's depth bound — it sits on the 10th and last
prototype level the loop is allowed to examine, of a 10-level chain — still
raises the fatal `This should never happen.` error instead of returning the
collected property names, because the post-loop check `j >= 10` cannot tell a
walk that found `target` on its last allowed iteration from a walk that ran
out of budget. -/
theorem getPropertiesForEvent_error_within_bound :
    "target" ∈ (List.replicate 9 (["a"] : List String) ++ [["target"]]).getD 9 [] ∧
    (List.replicate 9 (["a"] : List String) ++ [["target"]]).length = 10 ∧
    getPropertiesForEvent (List.replicate 9 (["a"] : List String) ++ [["target"]]) =
      .error .shouldNeverHappen := by
  refine ⟨by decide, by decide, ?_⟩
  rfl

/-- C7, amended: the walk is bounded in depth (at most 10 prototype levels are
examined) and for every native event whose enumerable `target` property first
appears within the first NINE levels of its prototype chain,
`getPropertiesForEvent` returns, without raising the error, the property names
of every level up to and including the one where `target` was found; when
`target` first appears exactly at the 10th level the fatal error is raised
even though the walk found it (see the counterexample). -/
theorem getPropertiesForEvent_ok_within_nine (pre : List (List String))
    (keys : List String) (post : List (List String))
    (hpre : ∀ l ∈ pre, "target" ∉ l) (hkeys : "target" ∈ keys)
    (hlen : pre.length ≤ 8) :
    getPropertiesForEvent (pre ++ keys :: post) = .ok (pre.flatten ++ keys) := by
  unfold getPropertiesForEvent
  rw [getPropsLoop_found pre keys post 0 [] hpre hkeys (by omega)]
  simp only [List.nil_append]
  rw [if_neg (by omega)]

/-- C7, witness: `target` on the second of three levels returns the first two
levels' keys. -/
theorem getPropertiesForEvent_ok_witness :
    getPropertiesForEvent [["a"], ["target", "b"], ["c"]] = .ok ["a", "target", "b"] :=
  getPropertiesForEvent_ok_within_nine [["a"]] ["target", "b"] [["c"]]
    (by decide) (by decide) (by decide)

end SyntheticEvent

namespace SimpleEventPlugin

/-- The DOM top-level event types relevant to SimpleEventPlugin.js: the 63
types given a dispatch configuration by its two tables, plus types that appear
in `DOMTopLevelEventTypes` but receive no entry (change, composition,
text-input, selection-change). -/
inductive DOMTopLevelType
  | topAbort | topAnimationEnd | topAnimationIteration | topAnimationStart
  | topBlur | topCancel | topCanPlay | topCanPlayThrough | topChange
  | topClick | topClose | topCompositionEnd | topCompositionStart
  | topCompositionUpdate | topContextMenu | topCopy | topCut
  | topDoubleClick | topDrag | topDragEnd | topDragEnter | topDragExit
  | topDragLeave | topDragOver | topDragStart | topDrop | topDurationChange
  | topEmptied | topEncrypted | topEnded | topError | topFocus | topInput
  | topInvalid | topKeyDown | topKeyPress | topKeyUp | topLoad
  | topLoadedData | topLoadedMetadata | topLoadStart | topMouseDown
  | topMouseMove | topMouseOut | topMouseOver | topMouseUp | topPaste
  | topPause | topPlay | topPlaying | topProgress | topRateChange
  | topReset | topScroll | topSeeked | topSeeking | topSelectionChange
  | topStalled | topSubmit | topSuspend | topTextInput | topTimeUpdate
  | topToggle | topTouchCancel | topTouchEnd | topTouchMove | topTouchStart
  | topTransitionEnd | topVolumeChange | topWaiting | topWheel
deriving DecidableEq, Repr

/-- A dispatch configuration built by `addEventTypeNameToConfig`. -/
structure DispatchConfig where
  bubbled : String
  captured : String
  isInteractive : Bool
deriving DecidableEq, Repr

/-- Source `interactiveEventTypeNames`. -/
def interactiveEventTypeNames : List (DOMTopLevelType × String) :=
  [(.topBlur, "onBlur"), (.topCancel, "onCancel"), (.topClick, "onClick"),
   (.topClose, "onClose"), (.topContextMenu, "onContextMenu"),
   (.topCopy, "onCopy"), (.topCut, "onCut"),
   (.topDoubleClick, "onDoubleClick"), (.topDragEnd, "onDragEnd"),
   (.topDragStart, "onDragStart"), (.topDrop, "onDrop"),
   (.topFocus, "onFocus"), (.topInput, "onInput"),
   (.topInvalid, "onInvalid"), (.topKeyDown, "onKeyDown"),
   (.topKeyPress, "onKeyPress"), (.topKeyUp, "onKeyUp"),
   (.topMouseDown, "onMouseDown"), (.topMouseUp, "onMouseUp"),
   (.topPaste, "onPaste"), (.topPause, "onPause"), (.topPlay, "onPlay"),
   (.topRateChange, "onRateChange"), (.topReset, "onReset"),
   (.topSeeked, "onSeeked"), (.topSubmit, "onSubmit"),
   (.topTouchCancel, "onTouchCancel"), (.topTouchEnd, "onTouchEnd"),
   (.topTouchStart, "onTouchStart"), (.topVolumeChange, "onVolumeChange")]

/-- Source `nonInteractiveEventTypeNames`. -/
def nonInteractiveEventTypeNames : List (DOMTopLevelType × String) :=
  [(.topAbort, "onAbort"), (.topAnimationEnd, "onAnimationEnd"),
   (.topAnimationIteration, "onAnimationIteration"),
   (.topAnimationStart, "onAnimationStart"), (.topCanPlay, "onCanPlay"),
   (.topCanPlayThrough, "onCanPlayThrough"), (.topDrag, "onDrag"),
   (.topDragEnter, "onDragEnter"), (.topDragExit, "onDragExit"),
   (.topDragLeave, "onDragLeave"), (.topDragOver, "onDragOver"),
   (.topDurationChange, "onDurationChange"), (.topEmptied, "onEmptied"),
   (.topEncrypted, "onEncrypted"), (.topEnded, "onEnded"),
   (.topError, "onError"), (.topLoad, "onLoad"),
   (.topLoadedData, "onLoadedData"), (.topLoadedMetadata, "onLoadedMetadata"),
   (.topLoadStart, "onLoadStart"), (.topMouseMove, "onMouseMove"),
   (.topMouseOut, "onMouseOut"), (.topMouseOver, "onMouseOver"),
   (.topPlaying, "onPlaying"), (.topProgress, "onProgress"),
   (.topScroll, "onScroll"), (.topSeeking, "onSeeking"),
   (.topStalled, "onStalled"), (.topSuspend, "onSuspend"),
   (.topTimeUpdate, "onTimeUpdate"), (.topToggle, "onToggle"),
   (.topTouchMove, "onTouchMove"), (.topTransitionEnd, "onTransitionEnd"),
   (.topWaiting, "onWaiting"), (.topWheel, "onWheel")]

/-- Source `addEventTypeNameToConfig([topEvent, onEvent], isInteractive)`:
derive the phased registration names and record the table entry. -/
def addEventTypeNameToConfig (p : DOMTopLevelType × String)
    (isInteractive : Bool) : DOMTopLevelType × DispatchConfig :=
  (p.1, { bubbled := p.2, captured := p.2 ++ "Capture", isInteractive })

/-- Source `topLevelEventsToDispatchConfig`, built from both name tables. -/
def topLevelEventsToDispatchConfig : List (DOMTopLevelType × DispatchConfig) :=
  interactiveEventTypeNames.map (addEventTypeNameToConfig · true) ++
    nonInteractiveEventTypeNames.map (addEventTypeNameToConfig · false)

/-- Lookup of `topLevelEventsToDispatchConfig[topLevelType]`. -/
def dispatchConfigOf (topLevelType : DOMTopLevelType) : Option DispatchConfig :=
  (topLevelEventsToDispatchConfig.find? fun p => p.1 == topLevelType).map (·.2)

/-- The synthetic-event constructor chosen by the `switch` in
`SimpleEventPlugin.extractEvents`. -/
inductive EventConstructorKind
  | syntheticEvent | keyboard | focus | mouse | drag | touch
  | animation | transition | ui | wheel | clipboard
deriving DecidableEq, Repr

/-- The part of the native event the simple plugin's switch reads. -/
structure SimpleNativeEvent where
  button : Int := 0
deriving DecidableEq, Repr

/-- An event produced by `SimpleEventPlugin.extractEvents`: its dispatch
configuration, the constructor it was pooled from, and its target instance. -/
structure SimpleSynthEvent where
  config : DispatchConfig
  constructorKind : EventConstructorKind
  targetInst : Option Nat
deriving DecidableEq, Repr

/-- Source `SimpleEventPlugin.extractEvents(topLevelType, targetInst,
nativeEvent, nativeEventTarget)`: return `null` when the type has no dispatch
configuration; otherwise select the constructor by the `switch` (dropping
function-key keypresses with char code 0 and right-button clicks) and pool one
synthetic event.  `getEventCharCode` (a helper module not under src/) is taken
as an oracle argument. -/
def extractEvents (getEventCharCode : SimpleNativeEvent → Int)
    (topLevelType : DOMTopLevelType) (targetInst : Option Nat)
    (nativeEvent : SimpleNativeEvent) : Option SimpleSynthEvent :=
  match dispatchConfigOf topLevelType with
  | none => none
  | some dispatchConfig =>
    let ctor : Option EventConstructorKind :=
      match topLevelType with
      | .topKeyPress =>
        if getEventCharCode nativeEvent == 0 then none else some .keyboard
      | .topKeyDown | .topKeyUp => some .keyboard
      | .topBlur | .topFocus => some .focus
      | .topClick =>
        if nativeEvent.button == 2 then none else some .mouse
      | .topDoubleClick | .topMouseDown | .topMouseMove | .topMouseUp
      | .topMouseOut | .topMouseOver | .topContextMenu => some .mouse
      | .topDrag | .topDragEnd | .topDragEnter | .topDragExit
      | .topDragLeave | .topDragOver | .topDragStart | .topDrop => some .drag
      | .topTouchCancel | .topTouchEnd | .topTouchMove
      | .topTouchStart => some .touch
      | .topAnimationEnd | .topAnimationIteration
      | .topAnimationStart => some .animation
      | .topTransitionEnd => some .transition
      | .topScroll => some .ui
      | .topWheel => some .wheel
      | .topCopy | .topCut | .topPaste => some .clipboard
      | _ => some .syntheticEvent
    match ctor with
    | none => none
    | some constructorKind =>
      some { config := dispatchConfig, constructorKind, targetInst }

end SimpleEventPlugin

namespace Responder

theorem setResponderAndExtractTransfer_state_eq (env : Env) (st : RState)
    (t : TopLevelType) (ti : Nat) :
    ∃ r, (setResponderAndExtractTransfer env st t ti).state =
      { st with responderInst := r } := by
  simp only [setResponderAndExtractTransfer, changeResponder]
  repeat' split
  all_goals exact ⟨_, rfl⟩

theorem transferStage_state_eq (env : Env) (st : RState) (t : TopLevelType)
    (ti : Option Nat) (ne : NativeEvent) :
    ∃ r, (transferStage env st t ti ne).state = { st with responderInst := r } := by
  unfold transferStage noTransfer
  repeat' split
  · exact setResponderAndExtractTransfer_state_eq env st t _
  · exact ⟨st.responderInst, rfl⟩
  · exact ⟨st.responderInst, rfl⟩

theorem finishExtract_state_eq (env : Env) (t : TopLevelType) (ne : NativeEvent)
    (tout : TransferOut) :
    ∃ r p, (finishExtract env t ne tout).state =
      { tout.state with responderInst := r, previousActiveTouches := p } := by
  simp only [finishExtract, changeResponder]
  repeat' split
  all_goals exact ⟨_, _, rfl⟩

theorem extractAfterCount_count (env : Env) (st : RState) (t : TopLevelType)
    (ti : Option Nat) (ne : NativeEvent) :
    (extractAfterCount env st t ti ne).state.trackedTouchCount =
      st.trackedTouchCount := by
  unfold extractAfterCount
  obtain ⟨r, p, h⟩ := finishExtract_state_eq env t ne
    (transferStage env
      { st with touchHistoryActive := env.recordActive t ne st.touchHistoryActive }
      t ti ne)
  rw [h]
  obtain ⟨r2, h2⟩ := transferStage_state_eq env
    { st with touchHistoryActive := env.recordActive t ne st.touchHistoryActive }
    t ti ne
  rw [h2]

theorem extractEvents_count (env : Env) (st : RState) (t : TopLevelType)
    (ti : Option Nat) (ne : NativeEvent) :
    (extractEvents env st t ti ne).state.trackedTouchCount =
      if isStartish t then st.trackedTouchCount + 1
      else if isEndish t then
        if st.trackedTouchCount ≥ 0 then st.trackedTouchCount - 1
        else st.trackedTouchCount
      else st.trackedTouchCount := by
  unfold extractEvents
  repeat' split
  all_goals simp_all [extractAfterCount_count]

theorem runEvents_count_floor (env : Env) (st : RState) (steps : List NativeStep)
    (h : st.trackedTouchCount ≥ -1) :
    (runEvents env st steps).1.trackedTouchCount ≥ -1 := by
  induction steps generalizing st with
  | nil => simpa [runEvents] using h
  | cons step rest ih =>
    simp only [runEvents]
    apply ih
    rw [extractEvents_count]
    repeat' split <;> omega

theorem hookChain_append {a m b : Option Nat} {l1 l2 : List HookCall}
    (h1 : hookChain a l1 m) (h2 : hookChain m l2 b) :
    hookChain a (l1 ++ l2) b := by
  induction l1 generalizing a with
  | nil => cases h1; simpa using h2
  | cons h rest ih =>
    obtain ⟨hp, hc⟩ := h1
    exact ⟨hp, ih hc⟩

theorem setResponderAndExtractTransfer_hookChain (env : Env) (st : RState)
    (t : TopLevelType) (ti : Nat)
    (hp : env.globalResponderHandlerPresent = true) :
    hookChain st.responderInst (setResponderAndExtractTransfer env st t ti).hooks
      (setResponderAndExtractTransfer env st t ti).state.responderInst := by
  simp only [setResponderAndExtractTransfer, changeResponder, hp]
  repeat' split
  all_goals simp_all [hookChain]

theorem transferStage_hookChain (env : Env) (st : RState) (t : TopLevelType)
    (ti : Option Nat) (ne : NativeEvent)
    (hp : env.globalResponderHandlerPresent = true) :
    hookChain st.responderInst (transferStage env st t ti ne).hooks
      (transferStage env st t ti ne).state.responderInst := by
  unfold transferStage noTransfer
  repeat' split
  · exact setResponderAndExtractTransfer_hookChain env st t _ hp
  · exact rfl
  · exact rfl

theorem finishExtract_hookChain (env : Env) (t : TopLevelType) (ne : NativeEvent)
    (tout : TransferOut) (a : Option Nat)
    (hp : env.globalResponderHandlerPresent = true)
    (hpre : hookChain a tout.hooks tout.state.responderInst) :
    hookChain a (finishExtract env t ne tout).hooks
      (finishExtract env t ne tout).state.responderInst := by
  simp only [finishExtract, changeResponder, hp]
  repeat' split
  all_goals
    refine hookChain_append hpre ?_
  all_goals simp_all [hookChain]

theorem extractAfterCount_hookChain (env : Env) (st : RState) (t : TopLevelType)
    (ti : Option Nat) (ne : NativeEvent)
    (hp : env.globalResponderHandlerPresent = true) :
    hookChain st.responderInst (extractAfterCount env st t ti ne).hooks
      (extractAfterCount env st t ti ne).state.responderInst := by
  unfold extractAfterCount
  exact finishExtract_hookChain env t ne _ _ hp
    (transferStage_hookChain env
      { st with touchHistoryActive := env.recordActive t ne st.touchHistoryActive }
      t ti ne hp)

theorem extractEvents_hookChain (env : Env) (st : RState) (t : TopLevelType)
    (ti : Option Nat) (ne : NativeEvent)
    (hp : env.globalResponderHandlerPresent = true) :
    hookChain st.responderInst (extractEvents env st t ti ne).hooks
      (extractEvents env st t ti ne).state.responderInst := by
  unfold extractEvents
  repeat' split
  · exact extractAfterCount_hookChain env
      { st with trackedTouchCount := st.trackedTouchCount + 1 } t ti ne hp
  · exact extractAfterCount_hookChain env
      { st with trackedTouchCount := st.trackedTouchCount - 1 } t ti ne hp
  · exact rfl
  · exact extractAfterCount_hookChain env st t ti ne hp

/-- C2: at most one instance holds responder status at any point — the
responder state is one nullable reference (`RState.responderInst`) — and over
any sequence of native events every change of that reference is mediated by
`changeResponder`, whose injected-global-responder-hook call log chains the
initial responder to the final one: each call reports
`(previousResponder, newResponder, blockNativeResponder)` with `previous`
equal to the responder left by the preceding call. -/
theorem responder_unique_hook_chain (env : Env) (st : RState)
    (steps : List NativeStep)
    (hp : env.globalResponderHandlerPresent = true) :
    hookChain st.responderInst (runEvents env st steps).2
      (runEvents env st steps).1.responderInst := by
  induction steps generalizing st with
  | nil => exact rfl
  | cons step rest ih =>
    simp only [runEvents]
    exact hookChain_append
      (extractEvents_hookChain env st step.topLevelType step.targetInst step.nativeEvent hp)
      (ih _)

/-- C2, witness: a concrete two-event run (touch-start that grants to instance
1, then touch-end that releases) whose hook log chains `none` to `none`. -/
theorem responder_unique_hook_chain_witness :
    hookChain none
      (runEvents { envW with twoPhaseStopAtTrue := fun _ _ _ => some 1 } { }
        [⟨.topTouchStart, some 1, { }⟩, ⟨.topTouchEnd, some 1, { }⟩]).2
      (runEvents { envW with twoPhaseStopAtTrue := fun _ _ _ => some 1 } { }
        [⟨.topTouchStart, some 1, { }⟩, ⟨.topTouchEnd, some 1, { }⟩]).1.responderInst :=
  responder_unique_hook_chain { envW with twoPhaseStopAtTrue := fun _ _ _ => some 1 }
    { } [⟨.topTouchStart, some 1, { }⟩, ⟨.topTouchEnd, some 1, { }⟩] (by decide)

/-- C1, counterexample: with the tracked touch count at `0`, an end-ish event
(a touch-end with no responder and no target) is NOT dropped — no error is
logged — and the count does not stay at its prior value `0`: it is decremented
to `-1`, observably negative, because the source guards the decrement with
`trackedTouchCount >= 0` instead of `> 0`. -/
theorem trackedTouchCount_goes_negative_at_zero :
    (extractEvents envW { } .topTouchEnd none { }).state.trackedTouchCount = -1 ∧
    (extractEvents envW { } .topTouchEnd none { }).errorLogged = false ∧
    ¬ (extractEvents envW { } .topTouchEnd none { }).state.trackedTouchCount ≥ 0 := by
  decide

/-- C1, amended: the tracked touch count can reach `-1` but never goes below
it.  An end-ish event arriving when the count is already negative is dropped —
extraction returns no synthetic events, no hook calls and no touch-history
recording, an error is logged, and the whole state (the count included) stays
at its prior value — and over any event sequence started at a count of at
least `-1` (in particular at the initial count `0`) the count stays at least
`-1`. -/
theorem trackedTouchCount_floor (env : Env) (st : RState) (t : TopLevelType)
    (ti : Option Nat) (ne : NativeEvent) (steps : List NativeStep) :
    (st.trackedTouchCount < 0 → isEndish t = true →
      extractEvents env st t ti ne = { state := st, errorLogged := true }) ∧
    (st.trackedTouchCount ≥ -1 →
      (runEvents env st steps).1.trackedTouchCount ≥ -1) := by
  constructor
  · intro hneg hend
    have hstart : isStartish t = false := by
      cases t <;> simp_all [isStartish, isEndish]
    have hge : ¬ st.trackedTouchCount ≥ 0 := by omega
    simp [extractEvents, hstart, hend, hge]
  · exact runEvents_count_floor env st steps

/-- C1, witness for the amended theorem: at a count of `-1`, a touch-end is
dropped with the state untouched; and a two-touch-end sequence from the
initial state never drives the count below `-1`. -/
theorem trackedTouchCount_floor_witness :
    (extractEvents envW { trackedTouchCount := -1 } .topTouchEnd none { } =
      { state := { trackedTouchCount := -1 }, errorLogged := true }) ∧
    (runEvents envW { } [⟨.topTouchEnd, none, { }⟩, ⟨.topTouchEnd, none, { }⟩]).1.trackedTouchCount
      ≥ -1 :=
  ⟨(trackedTouchCount_floor envW { trackedTouchCount := -1 } .topTouchEnd none { } []).1
      (by decide) (by decide),
   (trackedTouchCount_floor envW { } .topTouchEnd none { }
      [⟨.topTouchEnd, none, { }⟩, ⟨.topTouchEnd, none, { }⟩]).2 (by decide)⟩

end Responder

namespace SimpleEventPlugin

/-- C8: for every top-level event type with no entry in the dispatch
configuration table, `SimpleEventPlugin.extractEvents` returns null, regardless
of the native event's contents, the target instance, and the char-code oracle. -/
theorem extractEvents_none_of_no_config (getEventCharCode : SimpleNativeEvent → Int)
    (topLevelType : DOMTopLevelType) (targetInst : Option Nat)
    (nativeEvent : SimpleNativeEvent)
    (h : dispatchConfigOf topLevelType = none) :
    extractEvents getEventCharCode topLevelType targetInst nativeEvent = none := by
  unfold extractEvents
  rw [h]

/-- C8, witness: the change event type has no table entry and extracts nothing. -/
theorem extractEvents_none_of_no_config_witness :
    dispatchConfigOf .topChange = none ∧
    extractEvents (fun _ => 1) .topChange none { } = none :=
  ⟨by decide,
   extractEvents_none_of_no_config (fun _ => 1) .topChange none { } (by decide)⟩

end SimpleEventPlugin

namespace Responder

theorem setResponderAndExtractTransfer_released (env : Env) (st : RState)
    (t : TopLevelType) (ti : Nat) :
    (setResponderAndExtractTransfer env st t ti).released = [] := by
  simp only [setResponderAndExtractTransfer, changeResponder, maybeRelease,
    responderEventIsPersistent]
  repeat' split
  all_goals simp_all

theorem transferStage_released (env : Env) (st : RState) (t : TopLevelType)
    (ti : Option Nat) (ne : NativeEvent) :
    (transferStage env st t ti ne).released = [] := by
  unfold transferStage noTransfer
  repeat' split
  · exact setResponderAndExtractTransfer_released env st t _
  · rfl
  · rfl

theorem finishExtract_released (env : Env) (t : TopLevelType) (ne : NativeEvent)
    (tout : TransferOut) :
    (finishExtract env t ne tout).released = tout.released := by
  simp only [finishExtract, changeResponder]

theorem extractEvents_released (env : Env) (st : RState) (t : TopLevelType)
    (ti : Option Nat) (ne : NativeEvent) :
    (extractEvents env st t ti ne).released = [] := by
  unfold extractEvents extractAfterCount
  repeat' split
  all_goals
    first
    | rfl
    | rw [finishExtract_released]; exact transferStage_released env _ t ti ne

end Responder

/-- C9: every synthetic event built by the factory's `createSyntheticCreator`
reports `isPersistent()` returning `true` and has `persist()` returning `true`;
consequently the responder plugin's post-dispatch release guards
(release only when not persistent) never hand any event to `release`, in the
negotiation step or anywhere in extraction. -/
theorem synthetic_events_persistent_never_released :
    (∀ dc ti ne tgt e,
        SyntheticEvent.createSyntheticCreator dc ti ne tgt = .ok e →
          e.isPersistentResult = true ∧ e.persistResult = true) ∧
    (∀ env st t ti,
        (Responder.setResponderAndExtractTransfer env st t ti).released = []) ∧
    (∀ env st t ti ne,
        (Responder.extractEvents env st t ti ne).released = []) := by
  refine ⟨?_, ?_, ?_⟩
  · intro dc ti ne tgt e h
    unfold SyntheticEvent.createSyntheticCreator at h
    split at h
    · exact absurd h (by simp)
    · simp only [Except.ok.injEq] at h
      subst h
      exact ⟨rfl, rfl⟩
  · exact Responder.setResponderAndExtractTransfer_released
  · exact Responder.extractEvents_released

/-- C9, witness: a concrete factory event (one prototype level holding
`target`) is persistent, and a concrete negotiation releases nothing. -/
theorem synthetic_events_persistent_witness :
    (SyntheticEvent.createSyntheticCreator "cfg" none ⟨[["target"]], none, none⟩ 0 =
      .ok { dispatchConfig := "cfg", targetInst := none, isDefaultPrevented := false,
            isPropagationStopped := false, persistResult := true,
            isPersistentResult := true, target := 0, props := ["target"] }) ∧
    ({ dispatchConfig := "cfg", targetInst := none, isDefaultPrevented := false,
       isPropagationStopped := false, persistResult := true,
       isPersistentResult := true, target := 0,
       props := ["target"] } : SyntheticEvent.SyntheticEvt).isPersistentResult = true ∧
    (Responder.extractEvents Responder.envG { } .topTouchStart (some 1) { }).released = [] :=
  ⟨by rfl,
   (synthetic_events_persistent_never_released.1 "cfg" none ⟨[["target"]], none, none⟩ 0 _
     (by rfl)).1,
   synthetic_events_persistent_never_released.2.2 Responder.envG { } .topTouchStart
     (some 1) { }⟩

namespace Responder

theorem finishExtract_responder (env : Env) (t : TopLevelType) (ne : NativeEvent)
    (tout : TransferOut) :
    (finishExtract env t ne tout).state.responderInst = tout.state.responderInst ∨
    (finishExtract env t ne tout).state.responderInst = none := by
  simp only [finishExtract, changeResponder]
  repeat' split
  all_goals simp

theorem finishExtract_noTransfer_kinds (env : Env) (t : TopLevelType)
    (ne : NativeEvent) (st : RState) :
    ∀ e ∈ (finishExtract env t ne (noTransfer st)).extracted,
      e.kind = .onResponderStart ∨ e.kind = .onResponderMove ∨
      e.kind = .onResponderEnd ∨ e.kind = .onResponderTerminate ∨
      e.kind = .onResponderRelease := by
  intro e he
  simp only [finishExtract, noTransfer, changeResponder] at he
  repeat' split at he
  all_goals cases t <;> simp_all [isStartish, isMoveish, isEndish]
  all_goals rcases he with rfl | rfl <;> simp

/-- C10: for a native event whose target instance is null, the responder
plugin performs no transfer negotiation — `canTriggerTransfer` is false and
the extraction equals the pipeline run with an empty negotiation result, so
the responder is unchanged by the negotiation stage (it changes only to null,
by terminal delivery) — while touch-count bookkeeping, touch-history
recording, incremental delivery and terminal delivery still run, so every
extracted event is an incremental or terminal responder event (never a
grant, reject, terminate-request or should-set query result). -/
theorem null_target_no_transfer (env : Env) (st : RState) (t : TopLevelType)
    (ne : NativeEvent) :
    canTriggerTransfer st t none ne = false ∧
    extractAfterCount env st t none ne =
      finishExtract env t ne (noTransfer
        { st with touchHistoryActive := env.recordActive t ne st.touchHistoryActive }) ∧
    (∀ e ∈ (extractEvents env st t none ne).extracted,
        e.kind = .onResponderStart ∨ e.kind = .onResponderMove ∨
        e.kind = .onResponderEnd ∨ e.kind = .onResponderTerminate ∨
        e.kind = .onResponderRelease) ∧
    ((extractEvents env st t none ne).state.responderInst = st.responderInst ∨
      (extractEvents env st t none ne).state.responderInst = none) ∧
    (extractEvents env st t none ne).state.trackedTouchCount =
      (if isStartish t then st.trackedTouchCount + 1
       else if isEndish t then
         if st.trackedTouchCount ≥ 0 then st.trackedTouchCount - 1
         else st.trackedTouchCount
       else st.trackedTouchCount) := by
  refine ⟨rfl, rfl, ?_, ?_, extractEvents_count env st t none ne⟩
  · unfold extractEvents
    repeat' split
    all_goals
      first
      | (intro e he; exact absurd he (List.not_mem_nil e))
      | exact finishExtract_noTransfer_kinds env t ne _
  · unfold extractEvents extractAfterCount
    repeat' split
    all_goals
      first
      | exact Or.inl rfl
      | exact finishExtract_responder env t ne _

end Responder
